import Mathlib

/-!
Shallow embedding of the process/port lifecycle logic of the medical-chatbot
repository (files `run.py` and `streamlit_app.py`), together with the flat-file
appointment storage.  OS interactions (socket probes, `os.kill`, `netstat`,
`time.sleep`, prints) are modelled by explicit inputs in an `Env`/argument
record; the functions return the list of observable events they perform plus an
`Except` value modelling a raised-vs-returned Python outcome.
-/

/-- Python exception values that matter to this model: `ProcessLookupError`
from `os.kill` on a dead pid, `ValueError` from `int()` on a non-numeric
string, and generic `OSError`s (socket errors, print/sleep failures). -/
inductive PyErr where
  | processLookupError
  | valueError
  | oserror (code : Nat)
deriving DecidableEq, Repr

/-- How a process is terminated: `sigkill` models `os.kill(pid, SIGKILL)`
(run.py line 59), `sigterm` models `os.kill(pid, SIGTERM)` (streamlit_app.py
line 46), `taskkillTree` models `taskkill /PID pid /F /T`. -/
inductive KillMethod where
  | sigkill
  | sigterm
  | taskkillTree
deriving DecidableEq, Repr

/-- Observable actions of the lifecycle code, in program order. -/
inductive Event where
  | skippedCloudCleanup
  | pidKillFailed
  | pidKill (pid : Nat) (m : KillMethod)
  | portScan (port : Nat)
  | scanKill (pid : Nat)
  | portFreeConfirmed
  | warnStillInUse
  | cleanupCompleted
  | loggedCleanupError (e : PyErr)
  | cleanupEnter
  | cleanupCaught (e : PyErr)
  | removePidFile
  | spawnStreamlit
deriving DecidableEq, Repr

/-- Value of a decimal digit character, as computed by the `int()` model:
`c.toNat - '0'.toNat`. -/
def digitVal (c : Char) : Nat := c.toNat - '0'.toNat

/-- Model of Python `int(s.strip())` on the sidecar file content: succeeds
exactly on a nonempty all-digit string (the only content the program ever
writes), returning the decimal value; any other content raises `ValueError`,
modelled as `none`. -/
def parsePid (s : String) : Option Nat :=
  if !s.data.isEmpty && s.data.all Char.isDigit then
    some (s.data.foldl (fun n c => n * 10 + digitVal c) 0)
  else none

/-- Model of `os.kill(pid, sig)`: raises `ProcessLookupError` when the pid
names no live process, otherwise succeeds. -/
def osKill (alive : List Nat) (pid : Nat) : Except PyErr Unit :=
  if pid ∈ alive then .ok () else .error .processLookupError

namespace RunPy

/-- Environment of one execution of `run.py`: the cloud/windows flags
(module-level `IS_CLOUD` / `IS_WINDOWS`), the sidecar pid-file content
(`none` when the file does not exist), the set of live pids, the outcome of
the i-th `is_port_in_use` socket probe (`connect_ex` result, or a raised
socket error), a possible error raised by the i-th `time.sleep` of the
release-poll loop, the pids extracted from the `netstat -ano` listing for the
target port, and a possible error raised by the final status `print`. -/
structure Env where
  isCloud : Bool
  isWindows : Bool
  pidFile : Option String
  alive : List Nat
  probeSeq : Nat → Except PyErr Int
  sleepErr : Nat → Option PyErr
  netstatPids : List Nat
  printErr : Option PyErr

/-- Embedding of `run.py`'s `is_port_in_use` (lines 22-31): returns
`connect_ex(...) == 0`, and any raised socket error is caught, logged and
turned into `False`. -/
def is_port_in_use (probe : Except PyErr Int) : Bool :=
  match probe with
  | .ok r => r == 0
  | .error _ => false

/-- Embedding of Method 1 of `kill_process_on_port` (run.py lines 48-62):
terminate the recorded pid with `taskkill /PID pid /F /T` on Windows, and
with `os.kill(pid, SIGKILL)` otherwise, where a `ProcessLookupError` from a
dead pid is caught and ignored (`pass`). -/
def killByRecordedPid (isWindows : Bool) (alive : List Nat) (pid : Nat) :
    List Event × Except PyErr Unit :=
  if isWindows then ([.pidKill pid .taskkillTree], .ok ())
  else
    match osKill alive pid with
    | .ok _ => ([.pidKill pid .sigkill], .ok ())
    | .error _ => ([.pidKill pid .sigkill], .ok ())

/-- Outcome of the Method-3 release-poll loop (run.py lines 96-100). -/
inductive PollOutcome where
  | freed
  | raised (e : PyErr)
  | exhausted (nextIdx : Nat)
deriving DecidableEq, Repr

/-- Embedding of `for attempt in range(5): if not is_port_in_use(port):
return; time.sleep(0.5)` (run.py lines 96-100).  `fuel` is the remaining
number of attempts (initially 5), `i` the index of the next probe call.
`freed` models the early `return` out of the whole function. -/
def pollLoop (env : Env) : Nat → Nat → PollOutcome
  | 0, i => .exhausted i
  | fuel + 1, i =>
    if !(is_port_in_use (env.probeSeq i)) then .freed
    else
      match env.sleepErr i with
      | some e => .raised e
      | none => pollLoop env fuel (i + 1)

/-- Events of Method 1 of `kill_process_on_port` (run.py lines 42-64): when
the sidecar file exists, its content is parsed with `int(...)` (a parse
failure is caught by the method's own `except Exception`) and the recorded
pid is terminated. -/
def method1Events (env : Env) : List Event :=
  match env.pidFile with
  | none => []
  | some s =>
    match parsePid s with
    | none => [.pidKillFailed]
    | some pid => (killByRecordedPid env.isWindows env.alive pid).1

/-- Events of Method 2 of `kill_process_on_port` (run.py lines 66-92): only
on Windows and only when forced, enumerate the `netstat -ano` connection
table for the target port and `taskkill` each owning pid. -/
def method2Events (env : Env) (port : Nat) (force : Bool) : List Event :=
  if env.isWindows && force then
    .portScan port :: env.netstatPids.map Event.scanKill
  else []

/-- Body of the outer `try` of `kill_process_on_port` (run.py lines 41-105):
Method 1 (kill by pid file), Method 2 (netstat port sweep, Windows+force
only), Method 3 (release poll, non-cloud only) and the final status print.
The `Except` result models whether the body raised. -/
def killBody (env : Env) (port : Nat) (force : Bool) :
    List Event × Except PyErr Unit :=
  let m1 := method1Events env
  let m2 := method2Events env port force
  let finalCheck : Nat → List Event × Except PyErr Unit := fun i =>
    let finalEv : Event :=
      if is_port_in_use (env.probeSeq i) && force then .warnStillInUse
      else .cleanupCompleted
    match env.printErr with
    | some e => (m1 ++ m2, .error e)
    | none => (m1 ++ m2 ++ [finalEv], .ok ())
  if !env.isCloud then
    match pollLoop env 5 0 with
    | .freed => (m1 ++ m2 ++ [.portFreeConfirmed], .ok ())
    | .raised e => (m1 ++ m2, .error e)
    | .exhausted i => finalCheck i
  else finalCheck 0

/-- Embedding of `kill_process_on_port` (run.py lines 33-110): early return
in cloud mode unless forced; otherwise run the body, and at the top-level
`except Exception` handler log the error and re-raise it only outside cloud
mode. -/
def kill_process_on_port (env : Env) (port : Nat) (force : Bool) :
    List Event × Except PyErr Unit :=
  if !force && env.isCloud then ([.skippedCloudCleanup], .ok ())
  else
    match killBody env port force with
    | (es, .ok _) => (es, .ok ())
    | (es, .error e) =>
      (es ++ [.loggedCleanupError e], if env.isCloud then .ok () else .error e)

/-- Embedding of `cleanup` (run.py lines 112-124): forced
`kill_process_on_port(8080, force=True)` with every exception caught and
logged, then removal of the sidecar pid file when it exists. -/
def cleanup (env : Env) : List Event × Env :=
  let k := kill_process_on_port env 8080 true
  let es :=
    match k.2 with
    | .ok _ => k.1
    | .error e => k.1 ++ [.cleanupCaught e]
  match env.pidFile with
  | some _ => (.cleanupEnter :: (es ++ [.removePidFile]), { env with pidFile := none })
  | none => (.cleanupEnter :: es, env)

/-- Embedding of the interrupt-during-Running scenario: `signal_handler`
(run.py lines 126-129) runs `cleanup()` and then `sys.exit(0)`; the resulting
`SystemExit` is caught neither by `except KeyboardInterrupt` nor by
`except Exception` in `__main__`, so the interpreter exits and the
`atexit`-registered `cleanup` (run.py line 132) runs a second time. -/
def interruptWhileRunning (env : Env) : List Event × Env :=
  let c1 := cleanup env
  let c2 := cleanup c1.2
  (c1.1 ++ c2.1, c2.2)

/-- Embedding of the `__main__` startup sequence (run.py lines 140-165):
`kill_process_on_port(8080, force=not IS_CLOUD)` inside a `try` whose handler
re-raises outside cloud mode; a re-raised error reaches the outer
`except Exception`, which runs `cleanup()` and exits with status 1 instead of
spawning the Streamlit child.  The returned `Bool` records whether the child
was spawned. -/
def mainStartup (env : Env) : List Event × Bool :=
  let k := kill_process_on_port env 8080 (!env.isCloud)
  match k.2 with
  | .ok _ => (k.1 ++ [.spawnStreamlit], true)
  | .error _ =>
    if env.isCloud then (k.1 ++ [.spawnStreamlit], true)
    else
      let c := cleanup env
      (k.1 ++ c.1, false)

end RunPy

namespace StreamlitApp

/-- Embedding of the nested `is_port_in_use` of `start_flask_server`
(streamlit_app.py lines 72-75): returns `connect_ex(...) == 0` with no
`try`/`except`, so a raised socket error propagates to the caller. -/
def is_port_in_use (probe : Except PyErr Int) : Except PyErr Bool :=
  match probe with
  | .ok r => .ok (r == 0)
  | .error e => .error e

/-- Embedding of the recorded-pid termination in `cleanup_flask_server`
(streamlit_app.py lines 37-48): `taskkill /PID pid /F /T` on Windows, and
`os.kill(pid, SIGTERM)` otherwise, where any error is caught by a bare
`except: pass`. -/
def killByRecordedPid (isWindows : Bool) (alive : List Nat) (pid : Nat) :
    List Event × Except PyErr Unit :=
  if isWindows then ([.pidKill pid .taskkillTree], .ok ())
  else
    match osKill alive pid with
    | .ok _ => ([.pidKill pid .sigterm], .ok ())
    | .error _ => ([.pidKill pid .sigterm], .ok ())

/-- Embedding of the module-level `kill_process_on_port` of streamlit_app.py
(lines 15-26): a PowerShell kill-by-port sweep performed only on Windows,
with no cloud-environment guard. -/
def kill_process_on_port (isWindows : Bool) (port : Nat) : List Event :=
  if isWindows then [.portScan port] else []

/-- Embedding of `cleanup_flask_server` (streamlit_app.py lines 29-60): kill
the pid recorded in the sidecar file (parse failures are caught, the file is
removed in a `finally`), then unconditionally run the kill-by-port sweep on
port 8080. -/
def cleanup_flask_server (isWindows : Bool) (pidFile : Option String)
    (alive : List Nat) : List Event × Option String :=
  let pidPart : List Event :=
    match pidFile with
    | none => []
    | some s =>
      match parsePid s with
      | none => [.pidKillFailed]
      | some pid => (killByRecordedPid isWindows alive pid).1
  (pidPart ++ kill_process_on_port isWindows 8080, none)

/-- Result of `start_flask_server`: the early return when the port is already
occupied, readiness confirmed at probe call `i` of the startup poll, the
30-second timeout surfacing the accumulated log content, or the
`except Exception` handler's failure message. -/
inductive StartResult where
  | alreadyRunning
  | ready (i : Nat)
  | startupTimeout (logDiag : String)
  | failedToStart (e : PyErr)
deriving DecidableEq, Repr

/-- Streamlit-side state touched by `start_flask_server`: the sidecar
pid-file content, the log-file content, the pids spawned so far and the pids
killed so far.  `start_flask_server` never kills anything, which the `killed`
component makes expressible. -/
structure AppState where
  pidFile : Option String
  logFile : Option String
  spawned : List Nat
  killed : List Nat
deriving DecidableEq, Repr

/-- Embedding of the startup poll of `start_flask_server` (streamlit_app.py
lines 108-122): `while elapsed < 30` checked every `0.5` seconds, i.e. at most
60 probe calls; returns on the first probe reporting the port bound, and
otherwise times out.  A probe error propagates (to the surrounding
`except Exception`).  `fuel` is the number of remaining checks (initially 60)
and `i` the index of the next probe call. -/
def waitLoop (probeSeq : Nat → Except PyErr Int) (logContent : String) :
    Nat → Nat → Except PyErr StartResult
  | 0, _ => .ok (.startupTimeout logContent)
  | fuel + 1, i =>
    match is_port_in_use (probeSeq i) with
    | .error e => .error e
    | .ok true => .ok (.ready i)
    | .ok false => waitLoop probeSeq logContent fuel (i + 1)

/-- Embedding of `start_flask_server` (streamlit_app.py lines 68-133).  The
pre-check probe (call 0) happens outside the `try`, so its errors propagate.
Otherwise the log file is opened with mode `"w"` (truncating it; the child's
combined output `childOut` accumulates there), the child is spawned, the
sidecar file is overwritten with `str(process.pid)`, and the startup poll
runs with probe calls 1..60; an exception inside the `try` is caught and
reported as `failedToStart`. -/
def start_flask_server (probeSeq : Nat → Except PyErr Int) (childPid : Nat)
    (childOut : String) (st : AppState) :
    Except PyErr (AppState × StartResult) :=
  match is_port_in_use (probeSeq 0) with
  | .error e => .error e
  | .ok true => .ok (st, .alreadyRunning)
  | .ok false =>
    let st1 : AppState :=
      { st with
        logFile := some childOut
        spawned := st.spawned ++ [childPid]
        pidFile := some (Nat.repr childPid) }
    match waitLoop probeSeq childOut 60 1 with
    | .ok r => .ok (st1, r)
    | .error e => .ok (st1, .failedToStart e)

/-- Appointment record as built by the booking form (streamlit_app.py lines
202-209): six string fields (date and time are ISO-formatted strings). -/
structure Appointment where
  name : String
  email : String
  phone : String
  date : String
  time : String
  reason : String
deriving DecidableEq, Repr

/-- Embedding of `ensure_storage` (streamlit_app.py lines 136-141): create
the JSON document as an empty list when the file does not exist, and leave it
alone otherwise.  The storage is the parsed content of `appointments.json`
(`none` when the file does not exist). -/
def ensure_storage (store : Option (List Appointment)) : List Appointment :=
  match store with
  | none => []
  | some items => items

/-- Embedding of `save_appointment` (streamlit_app.py lines 144-150): read
the whole list, `append` the new record, and rewrite the document. -/
def save_appointment (store : Option (List Appointment)) (data : Appointment) :
    Option (List Appointment) :=
  some (ensure_storage store ++ [data])

/-- Embedding of `load_appointments` (streamlit_app.py lines 153-156). -/
def load_appointments (store : Option (List Appointment)) : List Appointment :=
  ensure_storage store

end StreamlitApp

/-! Round-trip between the pid-file writer (`f.write(str(process.pid))`,
modelled with `Nat.repr`) and the pid-file reader (`int(f.read().strip())`,
modelled with `parsePid`). -/

theorem digitVal_digitChar (d : Nat) (h : d < 10) :
    digitVal (Nat.digitChar d) = d := by
  interval_cases d <;> decide

theorem isDigit_digitChar (d : Nat) (h : d < 10) :
    (Nat.digitChar d).isDigit = true := by
  interval_cases d <;> decide

theorem toDigitsCore_eq_digits (n : Nat) : ∀ (fuel : Nat) (ds : List Char),
    n < fuel →
    Nat.toDigitsCore 10 fuel n ds =
      (if n = 0 then ['0'] else ((Nat.digits 10 n).map Nat.digitChar).reverse)
        ++ ds := by
  induction n using Nat.strong_induction_on with
  | _ n ih =>
    intro fuel ds hf
    cases fuel with
    | zero => omega
    | succ f =>
      rw [Nat.toDigitsCore]
      by_cases h0 : n / 10 = 0
      · have hlt : n < 10 := by omega
        by_cases hn : n = 0
        · subst hn; simp [Nat.digitChar]
        · have hmod : n % 10 = n := Nat.mod_eq_of_lt hlt
          simp [h0, hn, hmod, Nat.digits_of_lt 10 n hn hlt]
      · have hn : n ≠ 0 := by
          intro h; subst h; simp at h0
        have hdiv : n / 10 < n := Nat.div_lt_self (Nat.pos_of_ne_zero hn) (by norm_num)
        have hfuel : n / 10 < f := by omega
        simp only [h0, if_neg h0, if_neg hn]
        rw [ih (n / 10) hdiv f (Nat.digitChar (n % 10) :: ds) hfuel,
          Nat.digits_def' (by norm_num : (1 : ℕ) < 10) (Nat.pos_of_ne_zero hn)]
        simp [List.reverse_cons, List.append_assoc, h0]

theorem foldl_digitChar_reverse (l : List Nat) (hl : ∀ d ∈ l, d < 10) :
    ∀ (a : Nat),
    ((l.map Nat.digitChar).reverse).foldl (fun n c => n * 10 + digitVal c) a
      = a * 10 ^ l.length + Nat.ofDigits 10 l := by
  induction l with
  | nil => intro a; simp [Nat.ofDigits_nil]
  | cons d t ih =>
    intro a
    have hd : d < 10 := hl d (by simp)
    have ht : ∀ x ∈ t, x < 10 := fun x hx => hl x (by simp [hx])
    rw [List.map_cons, List.reverse_cons, List.foldl_append, ih ht a]
    simp only [List.foldl_cons, List.foldl_nil, Nat.ofDigits_cons,
      List.length_cons, digitVal_digitChar d hd, Nat.cast_id]
    ring

theorem parsePid_repr (n : Nat) : parsePid (Nat.repr n) = some n := by
  have hdata : (Nat.repr n).data = Nat.toDigitsCore 10 (n + 1) n [] := rfl
  rw [parsePid, hdata, toDigitsCore_eq_digits n (n + 1) [] (Nat.lt_succ_self n)]
  by_cases hn : n = 0
  · subst hn; decide
  · have hne : Nat.digits 10 n ≠ [] := Nat.digits_ne_nil_iff_ne_zero.mpr hn
    have hlt : ∀ d ∈ Nat.digits 10 n, d < 10 := fun d hd =>
      Nat.digits_lt_base (by norm_num) hd
    simp only [if_neg hn, List.append_nil]
    have hempty : (((Nat.digits 10 n).map Nat.digitChar).reverse).isEmpty = false := by
      rcases List.exists_cons_of_ne_nil hne with ⟨d, t, hdt⟩
      simp [hdt]
    have hall : (((Nat.digits 10 n).map Nat.digitChar).reverse).all Char.isDigit
        = true := by
      rw [List.all_eq_true]
      intro c hc
      rw [List.mem_reverse, List.mem_map] at hc
      rcases hc with ⟨d, hd, rfl⟩
      exact isDigit_digitChar d (hlt d hd)
    rw [hempty, hall]
    simp only [Bool.not_false, Bool.true_and, if_pos rfl]
    rw [foldl_digitChar_reverse (Nat.digits 10 n) hlt 0, Nat.ofDigits_digits]
    simp

/-! Helper lemmas about the event lists and outcomes of `run.py`'s
`kill_process_on_port` and `cleanup`. -/

/-- Number of entries into the `cleanup` routine recorded in an event
trace. -/
def cleanupCount (es : List Event) : Nat := es.count Event.cleanupEnter

theorem runPy_killByRecordedPid_eq (w : Bool) (a : List Nat) (p : Nat) :
    RunPy.killByRecordedPid w a p
      = ([Event.pidKill p (if w then KillMethod.taskkillTree else KillMethod.sigkill)],
          Except.ok ()) := by
  by_cases h : w <;> by_cases h2 : p ∈ a <;>
    simp [RunPy.killByRecordedPid, osKill, h, h2]

theorem streamlit_killByRecordedPid_eq (w : Bool) (a : List Nat) (p : Nat) :
    StreamlitApp.killByRecordedPid w a p
      = ([Event.pidKill p (if w then KillMethod.taskkillTree else KillMethod.sigterm)],
          Except.ok ()) := by
  by_cases h : w <;> by_cases h2 : p ∈ a <;>
    simp [StreamlitApp.killByRecordedPid, osKill, h, h2]

theorem cleanupEnter_notin_method1 (env : RunPy.Env) :
    Event.cleanupEnter ∉ RunPy.method1Events env := by
  unfold RunPy.method1Events
  split
  · simp
  · split
    · simp
    · rw [runPy_killByRecordedPid_eq]; simp

theorem cleanupEnter_notin_method2 (env : RunPy.Env) (port : Nat) (force : Bool) :
    Event.cleanupEnter ∉ RunPy.method2Events env port force := by
  unfold RunPy.method2Events
  split <;> simp

theorem killBody_events_decomp (env : RunPy.Env) (port : Nat) (force : Bool) :
    ∃ tail : List Event,
      (RunPy.killBody env port force).1
        = RunPy.method1Events env ++ RunPy.method2Events env port force ++ tail
      ∧ tail ⊆ [Event.portFreeConfirmed, Event.warnStillInUse, Event.cleanupCompleted] := by
  unfold RunPy.killBody
  by_cases hc : env.isCloud
  · simp only [hc, Bool.not_true, Bool.false_eq_true, if_false]
    cases env.printErr with
    | some e => exact ⟨[], by simp⟩
    | none =>
      refine ⟨[if RunPy.is_port_in_use (env.probeSeq 0) && force then
        Event.warnStillInUse else Event.cleanupCompleted], by simp, ?_⟩
      split <;> simp
  · simp only [hc, Bool.not_false, if_true]
    cases hp : RunPy.pollLoop env 5 0 with
    | freed => exact ⟨[Event.portFreeConfirmed], by simp, by simp⟩
    | raised e => exact ⟨[], by simp⟩
    | exhausted i =>
      cases env.printErr with
      | some e => exact ⟨[], by simp⟩
      | none =>
        refine ⟨[if RunPy.is_port_in_use (env.probeSeq i) && force then
          Event.warnStillInUse else Event.cleanupCompleted], by simp, ?_⟩
        split <;> simp

theorem cleanupEnter_notin_kill (env : RunPy.Env) (port : Nat) (force : Bool) :
    Event.cleanupEnter ∉ (RunPy.kill_process_on_port env port force).1 := by
  unfold RunPy.kill_process_on_port
  rcases killBody_events_decomp env port force with ⟨tail, hdec, hsub⟩
  split
  · simp
  · rcases hkb : RunPy.killBody env port force with ⟨es, r⟩
    rw [hkb] at hdec
    simp only at hdec
    cases r with
    | ok _ =>
      simp only [hkb]
      rw [hdec]
      intro hmem
      rcases List.mem_append.mp hmem with hmem' | htail
      · rcases List.mem_append.mp hmem' with h1 | h2
        · exact cleanupEnter_notin_method1 env h1
        · exact cleanupEnter_notin_method2 env port force h2
      · have := hsub htail; simp at this
    | error e =>
      simp only [hkb]
      rw [hdec]
      intro hmem
      rcases List.mem_append.mp hmem with hmem' | hlog
      · rcases List.mem_append.mp hmem' with hmem'' | htail
        · rcases List.mem_append.mp hmem'' with h1 | h2
          · exact cleanupEnter_notin_method1 env h1
          · exact cleanupEnter_notin_method2 env port force h2
        · have := hsub htail; simp at this
      · simp at hlog

theorem pollLoop_not_raised (env : RunPy.Env) (hs : ∀ i, env.sleepErr i = none) :
    ∀ (fuel i : Nat), RunPy.pollLoop env fuel i = .freed
      ∨ ∃ k, RunPy.pollLoop env fuel i = .exhausted k := by
  intro fuel
  induction fuel with
  | zero => intro i; exact .inr ⟨i, rfl⟩
  | succ n ih =>
    intro i
    by_cases h : RunPy.is_port_in_use (env.probeSeq i)
    · simpa [RunPy.pollLoop, h, hs i] using ih (i + 1)
    · simp [RunPy.pollLoop, h]

theorem killBody_ok (env : RunPy.Env) (port : Nat) (force : Bool)
    (hs : ∀ i, env.sleepErr i = none) (hp : env.printErr = none) :
    (RunPy.killBody env port force).2 = Except.ok () := by
  unfold RunPy.killBody
  by_cases hc : env.isCloud
  · simp [hc, hp]
  · rcases pollLoop_not_raised env hs 5 0 with h | ⟨k, h⟩ <;> simp [hc, h, hp]

theorem kill_ok (env : RunPy.Env) (port : Nat) (force : Bool)
    (hs : ∀ i, env.sleepErr i = none) (hp : env.printErr = none) :
    (RunPy.kill_process_on_port env port force).2 = Except.ok () := by
  unfold RunPy.kill_process_on_port
  split
  · rfl
  · have hb := killBody_ok env port force hs hp
    rcases hkb : RunPy.killBody env port force with ⟨es, r⟩
    rw [hkb] at hb
    simp only at hb
    subst hb
    simp [hkb]

theorem portScan_mem_kill_forced (env : RunPy.Env) (port : Nat)
    (hw : env.isWindows = true) :
    Event.portScan port ∈ (RunPy.kill_process_on_port env port true).1 := by
  have hm2 : Event.portScan port ∈ RunPy.method2Events env port true := by
    simp [RunPy.method2Events, hw]
  rcases killBody_events_decomp env port true with ⟨tail, hdec, hsub⟩
  unfold RunPy.kill_process_on_port
  split
  · rename_i h; simp at h
  · rcases hkb : RunPy.killBody env port true with ⟨es, r⟩
    rw [hkb] at hdec
    simp only at hdec
    cases r <;> simp only [hkb] <;> rw [hdec] <;>
      simp [List.mem_append, hm2]

theorem portScan_mem_cleanup (env : RunPy.Env) (hw : env.isWindows = true) :
    Event.portScan 8080 ∈ (RunPy.cleanup env).1 := by
  have h := portScan_mem_kill_forced env 8080 hw
  unfold RunPy.cleanup
  rcases hk : RunPy.kill_process_on_port env 8080 true with ⟨es, r⟩
  rw [hk] at h
  simp only at h
  cases hpf : env.pidFile <;> cases r <;> simp [hk, List.mem_append, h]

theorem cleanup_events_count (env : RunPy.Env) :
    cleanupCount (RunPy.cleanup env).1 = 1
    ∧ (RunPy.cleanup env).2.pidFile = none := by
  unfold RunPy.cleanup
  have hnk := cleanupEnter_notin_kill env 8080 true
  have hcount : ∀ es : List Event, Event.cleanupEnter ∉ es →
      cleanupCount es = 0 := fun es h => List.count_eq_zero.mpr h
  rcases hk : RunPy.kill_process_on_port env 8080 true with ⟨es, r⟩
  rw [hk] at hnk
  simp only at hnk
  cases hpf : env.pidFile with
  | some s =>
    cases r with
    | ok _ =>
      constructor
      · simp only [hk, cleanupCount, List.count_cons, List.count_append]
        have := hcount es hnk
        simp [cleanupCount] at this
        simp [this, List.count_singleton]
      · simp [hk, hpf]
    | error e =>
      constructor
      · simp only [hk, cleanupCount, List.count_cons, List.count_append]
        have := hcount es hnk
        simp [cleanupCount] at this
        simp [this]
      · simp [hk, hpf]
  | none =>
    cases r with
    | ok _ =>
      constructor
      · simp only [hk, cleanupCount, List.count_cons]
        have := hcount es hnk
        simp [cleanupCount] at this
        simp [this]
      · simp [hk, hpf]
    | error e =>
      constructor
      · simp only [hk, cleanupCount, List.count_cons, List.count_append]
        have := hcount es hnk
        simp [cleanupCount] at this
        simp [this]
      · simp [hk, hpf]

/-! Claim theorems. -/

/-- C1 counterexample environment: a local POSIX run whose sidecar file
records the live child pid 12 and whose port probe reports the port free. -/
def envLinuxLocal : RunPy.Env where
  isCloud := false
  isWindows := false
  pidFile := some "12"
  alive := [12]
  probeSeq := fun _ => Except.ok 1
  sleepErr := fun _ => none
  netstatPids := []
  printErr := none

/-- C1 counterexample: on an interrupt during the Running state the cleanup
routine does not execute exactly once — `signal_handler` runs it and the
`atexit` hook runs it again, so the trace records two executions. -/
theorem c1_counterexample :
    cleanupCount (RunPy.interruptWhileRunning envLinuxLocal).1 ≠ 1 := by
  decide

/-- C1 (amended): on an interrupt signal received in the Running state the
cleanup routine executes exactly twice — once from `signal_handler` and once
from the `atexit`-registered hook that runs when `sys.exit(0)` unwinds the
interpreter — and after it completes the sidecar pid file does not exist. -/
theorem c1_interrupt_cleanup_twice_and_file_removed (env : RunPy.Env) :
    cleanupCount (RunPy.interruptWhileRunning env).1 = 2
    ∧ (RunPy.interruptWhileRunning env).2.pidFile = none := by
  unfold RunPy.interruptWhileRunning
  rcases cleanup_events_count env with ⟨h1, h2⟩
  rcases cleanup_events_count (RunPy.cleanup env).2 with ⟨h3, h4⟩
  refine ⟨?_, h4⟩
  simp only [cleanupCount, List.count_append] at h1 h3 ⊢
  omega

/-- C2 counterexample environment: cloud flag set, Windows host, the probe
reporting port 8080 occupied, one foreign pid listed by netstat. -/
def envCloudWindows : RunPy.Env where
  isCloud := true
  isWindows := true
  pidFile := none
  alive := []
  probeSeq := fun _ => Except.ok 0
  sleepErr := fun _ => none
  netstatPids := [77]
  printErr := none

/-- C2 counterexample: with the cloud flag set, the exit-time cleanup — which
calls `kill_process_on_port(8080, force=True)`, bypassing the cloud guard —
does invoke the netstat Port Scanner fallback while the probe reports the
port occupied. -/
theorem c2_counterexample :
    Event.portScan 8080 ∈ (RunPy.cleanup envCloudWindows).1
    ∧ RunPy.is_port_in_use (envCloudWindows.probeSeq 0) = true := by
  decide

/-- C2 (amended): in cloud mode a non-forced `kill_process_on_port` — the
startup cleanup passes `force = not IS_CLOUD`, i.e. non-forced in cloud mode
— never invokes the Port Scanner fallback; the forced exit-time cleanup on
Windows does invoke it. -/
theorem c2_cloud_scan_only_when_forced (env : RunPy.Env) (port p : Nat)
    (hc : env.isCloud = true) :
    Event.portScan p ∉ (RunPy.kill_process_on_port env port false).1
    ∧ (env.isWindows = true → Event.portScan 8080 ∈ (RunPy.cleanup env).1) := by
  constructor
  · simp [RunPy.kill_process_on_port, hc]
  · exact fun hw => portScan_mem_cleanup env hw

/-- C2 witness environment: cloud flag set on a Windows host, port probe
reporting the port free. -/
def envCloudWindowsFree : RunPy.Env where
  isCloud := true
  isWindows := true
  pidFile := none
  alive := []
  probeSeq := fun _ => Except.ok 1
  sleepErr := fun _ => none
  netstatPids := []
  printErr := none

/-- C2 witness: the amended theorem applied to a concrete cloud-mode
environment. -/
theorem c2_cloud_scan_only_when_forced_witness :
    envCloudWindowsFree.isCloud = true
    ∧ Event.portScan 9090 ∉ (RunPy.kill_process_on_port envCloudWindowsFree 9090 false).1
    ∧ (envCloudWindowsFree.isWindows = true →
        Event.portScan 8080 ∈ (RunPy.cleanup envCloudWindowsFree).1) :=
  ⟨rfl, (c2_cloud_scan_only_when_forced envCloudWindowsFree 9090 9090 rfl).1,
    (c2_cloud_scan_only_when_forced envCloudWindowsFree 9090 9090 rfl).2⟩

/-- C3 counterexample: the streamlit-app Process Terminator, terminating the
recorded pid 42 on a POSIX system, sends `SIGTERM`, not the forceful
`SIGKILL` the claim requires of every termination-by-recorded-id. -/
theorem c3_counterexample :
    (StreamlitApp.cleanup_flask_server false (some "42") [42]).1
      = [Event.pidKill 42 KillMethod.sigterm]
    ∧ Event.pidKill 42 KillMethod.sigterm ≠ Event.pidKill 42 KillMethod.sigkill := by
  decide

/-- C3 (amended): on POSIX systems the run-script Terminator sends the
forceful `SIGKILL` to the recorded pid while the streamlit-app Terminator
sends `SIGTERM`; on Windows both invoke `taskkill /PID pid /F /T`, the
task-termination utility with recursive tree termination.  In all four cases
termination errors are swallowed. -/
theorem c3_terminator_by_recorded_id (alive : List Nat) (pid : Nat) :
    RunPy.killByRecordedPid false alive pid
      = ([Event.pidKill pid KillMethod.sigkill], Except.ok ())
    ∧ RunPy.killByRecordedPid true alive pid
      = ([Event.pidKill pid KillMethod.taskkillTree], Except.ok ())
    ∧ StreamlitApp.killByRecordedPid false alive pid
      = ([Event.pidKill pid KillMethod.sigterm], Except.ok ())
    ∧ StreamlitApp.killByRecordedPid true alive pid
      = ([Event.pidKill pid KillMethod.taskkillTree], Except.ok ()) := by
  refine ⟨?_, ?_, ?_, ?_⟩ <;>
    simp [runPy_killByRecordedPid_eq, streamlit_killByRecordedPid_eq]

/-- C4 witness environment: local POSIX run whose sidecar file records pid
999, which is not alive; the port probe reports the port free and no errors
are injected. -/
def envDeadPid : RunPy.Env where
  isCloud := false
  isWindows := false
  pidFile := some "999"
  alive := []
  probeSeq := fun _ => Except.ok 1
  sleepErr := fun _ => none
  netstatPids := []
  printErr := none

/-- C4: when the sidecar file records a pid that no longer exists, the raw
`os.kill` raises `ProcessLookupError`, but both Process Terminators catch it
and return normally, the whole startup cleanup call returns normally, and the
Launch Supervisor proceeds to spawn the child. -/
theorem c4_dead_pid_no_raise_and_launch (env : RunPy.Env) (s : String) (pid : Nat)
    (h1 : env.pidFile = some s) (h2 : parsePid s = some pid)
    (h3 : pid ∉ env.alive)
    (hs : ∀ i, env.sleepErr i = none) (hp : env.printErr = none) :
    osKill env.alive pid = Except.error PyErr.processLookupError
    ∧ (RunPy.killByRecordedPid env.isWindows env.alive pid).2 = Except.ok ()
    ∧ (StreamlitApp.killByRecordedPid env.isWindows env.alive pid).2 = Except.ok ()
    ∧ Event.pidKill pid
        (if env.isWindows then KillMethod.taskkillTree else KillMethod.sigkill)
        ∈ RunPy.method1Events env
    ∧ (RunPy.kill_process_on_port env 8080 (!env.isCloud)).2 = Except.ok ()
    ∧ (RunPy.mainStartup env).2 = true := by
  refine ⟨by simp [osKill, h3], ?_, ?_, ?_,
    kill_ok env 8080 (!env.isCloud) hs hp, ?_⟩
  · rw [runPy_killByRecordedPid_eq]
  · rw [streamlit_killByRecordedPid_eq]
  · unfold RunPy.method1Events
    simp [h1, h2, runPy_killByRecordedPid_eq]
  · unfold RunPy.mainStartup
    have hok := kill_ok env 8080 (!env.isCloud) hs hp
    rcases hk : RunPy.kill_process_on_port env 8080 (!env.isCloud) with ⟨es, r⟩
    rw [hk] at hok
    simp only at hok
    subst hok
    simp [hk]

/-- C4 witness: the theorem applied to the concrete dead-pid environment. -/
theorem c4_dead_pid_no_raise_and_launch_witness :
    envDeadPid.pidFile = some "999"
    ∧ parsePid "999" = some 999
    ∧ 999 ∉ envDeadPid.alive
    ∧ osKill envDeadPid.alive 999 = Except.error PyErr.processLookupError
    ∧ (RunPy.mainStartup envDeadPid).2 = true :=
  ⟨rfl, by decide, by decide,
    (c4_dead_pid_no_raise_and_launch envDeadPid "999" 999 rfl (by decide)
      (by decide) (fun _ => rfl) rfl).1,
    (c4_dead_pid_no_raise_and_launch envDeadPid "999" 999 rfl (by decide)
      (by decide) (fun _ => rfl) rfl).2.2.2.2.2⟩

/-- C5 counterexample: the streamlit-app inner Port Prober has no
`try`/`except`, so a raised socket-level error propagates to its caller
instead of being returned as "not occupied". -/
theorem c5_counterexample :
    StreamlitApp.is_port_in_use (Except.error (PyErr.oserror 110))
      = Except.error (PyErr.oserror 110)
    ∧ StreamlitApp.is_port_in_use (Except.error (PyErr.oserror 110))
      ≠ Except.ok false := by
  refine ⟨rfl, ?_⟩
  simp [StreamlitApp.is_port_in_use]

/-- C5 (amended): for every port with no TCP listener (a nonzero
`connect_ex` result) both Port Probers report "not occupied"; when the
underlying socket call raises, the run-script Port Prober swallows the error
and returns "not occupied", while the streamlit-app inner Port Prober
propagates the error to its caller. -/
theorem c5_port_prober (r : Int) (e : PyErr) (hr : r ≠ 0) :
    RunPy.is_port_in_use (Except.ok r) = false
    ∧ StreamlitApp.is_port_in_use (Except.ok r) = Except.ok false
    ∧ RunPy.is_port_in_use (Except.error e) = false
    ∧ StreamlitApp.is_port_in_use (Except.error e) = Except.error e := by
  refine ⟨?_, ?_, rfl, rfl⟩ <;>
    simp [RunPy.is_port_in_use, StreamlitApp.is_port_in_use, hr]

/-- C5 witness: the amended theorem applied to the concrete `connect_ex`
result 111 (connection refused) and a concrete socket error. -/
theorem c5_port_prober_witness :
    (111 : Int) ≠ 0
    ∧ RunPy.is_port_in_use (Except.ok 111) = false
    ∧ StreamlitApp.is_port_in_use (Except.error (PyErr.oserror 11))
      = Except.error (PyErr.oserror 11) :=
  ⟨by decide, (c5_port_prober 111 (PyErr.oserror 11) (by decide)).1,
    (c5_port_prober 111 (PyErr.oserror 11) (by decide)).2.2.2⟩

theorem waitLoop_timeout (v : Nat → Int) (logContent : String) :
    ∀ (fuel i : Nat), (∀ j, i ≤ j → j < i + fuel → v j ≠ 0) →
    StreamlitApp.waitLoop (fun k => Except.ok (v k)) logContent fuel i
      = Except.ok (StreamlitApp.StartResult.startupTimeout logContent) := by
  intro fuel
  induction fuel with
  | zero => intro i h; rfl
  | succ n ih =>
    intro i h
    have hvi : v i ≠ 0 := h i le_rfl (by omega)
    have hb : ((v i) == 0) = false := beq_eq_false_iff_ne.mpr hvi
    simp only [StreamlitApp.waitLoop, StreamlitApp.is_port_in_use, hb]
    exact ih (i + 1) (fun j hj1 hj2 => h j (by omega) (by omega))

theorem waitLoop_ready (v : Nat → Int) (logContent : String) :
    ∀ (fuel i j : Nat), i ≤ j → j < i + fuel → v j = 0 →
    (∀ k, i ≤ k → k < j → v k ≠ 0) →
    StreamlitApp.waitLoop (fun k => Except.ok (v k)) logContent fuel i
      = Except.ok (StreamlitApp.StartResult.ready j) := by
  intro fuel
  induction fuel with
  | zero => intro i j h1 h2 h3 h4; omega
  | succ n ih =>
    intro i j h1 h2 h3 h4
    by_cases hij : i = j
    · subst hij
      simp [StreamlitApp.waitLoop, StreamlitApp.is_port_in_use, h3]
    · have hvi : v i ≠ 0 := h4 i le_rfl (by omega)
      have hb : ((v i) == 0) = false := beq_eq_false_iff_ne.mpr hvi
      simp only [StreamlitApp.waitLoop, StreamlitApp.is_port_in_use, hb]
      exact ih (i + 1) j (by omega) (by omega) h3
        (fun k hk1 hk2 => h4 k (by omega) hk2)

/-- C6: after a successful launch (the pre-check probe, call 0, reports the
port free, so the child is spawned), the sidecar file holds exactly
`str(process.pid)` — independently of any previous content, i.e. overwritten
rather than appended to — and that content parses back to the positive child
pid.  This holds whether the startup poll succeeds, times out, or fails. -/
theorem c6_sidecar_pid_file (v : Nat → Int) (childPid : Nat) (childOut : String)
    (st : StreamlitApp.AppState) (h0 : v 0 ≠ 0) (hpid : 0 < childPid) :
    ∃ res, StreamlitApp.start_flask_server (fun k => Except.ok (v k)) childPid childOut st
        = Except.ok
          ({ st with
              logFile := some childOut
              spawned := st.spawned ++ [childPid]
              pidFile := some (Nat.repr childPid) }, res)
    ∧ parsePid (Nat.repr childPid) = some childPid
    ∧ 0 < childPid := by
  have hb : ((v 0) == 0) = false := beq_eq_false_iff_ne.mpr h0
  unfold StreamlitApp.start_flask_server
  simp only [StreamlitApp.is_port_in_use, hb]
  cases hw : StreamlitApp.waitLoop (fun k => Except.ok (v k)) childOut 60 1 with
  | ok r => exact ⟨r, by simp [hw], parsePid_repr childPid, hpid⟩
  | error e =>
    exact ⟨.failedToStart e, by simp [hw], parsePid_repr childPid, hpid⟩

/-- C6 witness: the theorem applied to a free port, child pid 42 and a
sidecar file holding stale content beforehand. -/
theorem c6_sidecar_pid_file_witness :
    (1 : Int) ≠ 0 ∧ 0 < 42
    ∧ ∃ res, StreamlitApp.start_flask_server (fun _ => Except.ok 1) 42 "out"
        ⟨some "7", none, [], []⟩
        = Except.ok (⟨some (Nat.repr 42), some "out", [42], []⟩, res)
    ∧ parsePid (Nat.repr 42) = some 42
    ∧ 0 < 42 :=
  ⟨by decide, by decide,
    c6_sidecar_pid_file (fun _ => 1) 42 "out" ⟨some "7", none, [], []⟩
      (by decide) (by decide)⟩

/-- C7: during the Launching-to-Running transition the supervisor performs at
most 60 probe calls (one every 0.5 s for at most 30 s, calls 1..60 after the
pre-check call 0); if the child binds the port at the first occupied probe
`j` within that window the poll stops with `ready j`, and if no probe in the
window reports the port bound the poll ends with the accumulated child log
output as a timeout diagnostic — in both cases the spawned child is recorded
and the `killed` component is untouched, so nothing is killed or aborted. -/
theorem c7_startup_poll (v : Nat → Int) (childPid : Nat) (childOut : String)
    (st : StreamlitApp.AppState) (h0 : v 0 ≠ 0) :
    ((∀ j, 1 ≤ j → j ≤ 60 → v j ≠ 0) →
      StreamlitApp.start_flask_server (fun k => Except.ok (v k)) childPid childOut st
        = Except.ok
          ({ st with
              logFile := some childOut
              spawned := st.spawned ++ [childPid]
              pidFile := some (Nat.repr childPid) },
            StreamlitApp.StartResult.startupTimeout childOut))
    ∧ (∀ j, 1 ≤ j → j ≤ 60 → v j = 0 → (∀ k, 1 ≤ k → k < j → v k ≠ 0) →
      StreamlitApp.start_flask_server (fun k => Except.ok (v k)) childPid childOut st
        = Except.ok
          ({ st with
              logFile := some childOut
              spawned := st.spawned ++ [childPid]
              pidFile := some (Nat.repr childPid) },
            StreamlitApp.StartResult.ready j)) := by
  have hb : ((v 0) == 0) = false := beq_eq_false_iff_ne.mpr h0
  constructor
  · intro hall
    have hw := waitLoop_timeout v childOut 60 1 (fun j hj1 hj2 => hall j hj1 (by omega))
    unfold StreamlitApp.start_flask_server
    simp only [StreamlitApp.is_port_in_use, hb, hw]
  · intro j hj1 hj2 hj0 hmin
    have hw := waitLoop_ready v childOut 60 1 j hj1 (by omega) hj0 hmin
    unfold StreamlitApp.start_flask_server
    simp only [StreamlitApp.is_port_in_use, hb, hw]

/-- C7 witness: a child that never binds the port; the poll times out with
the log content surfaced and the spawned child still recorded. -/
theorem c7_startup_poll_witness :
    (1 : Int) ≠ 0
    ∧ StreamlitApp.start_flask_server (fun _ => Except.ok 1) 9 "lg"
        ⟨none, none, [], []⟩
        = Except.ok (⟨some (Nat.repr 9), some "lg", [9], []⟩,
            StreamlitApp.StartResult.startupTimeout "lg") :=
  ⟨by decide,
    (c7_startup_poll (fun _ => 1) 9 "lg" ⟨none, none, [], []⟩ (by decide)).1
      (fun j hj1 hj2 => by decide)⟩

/-- C8: an unexpected exception `e` raised in the body of the cleanup routine
(when the body actually runs, i.e. the cloud early-return is not taken) is
caught at the routine's top level and logged; the routine then re-raises it
outside cloud mode and suppresses it inside cloud mode.  Consequently, when
the startup cleanup raises, the Launch Supervisor spawns the child exactly
when running in cloud mode, and aborts startup otherwise. -/
theorem c8_cleanup_exception_policy (env : RunPy.Env) (port : Nat) (force : Bool)
    (e : PyErr) (h : (RunPy.killBody env port force).2 = Except.error e)
    (hforce : (!force && env.isCloud) = false) :
    (RunPy.kill_process_on_port env port force).2
        = (if env.isCloud then Except.ok () else Except.error e)
    ∧ Event.loggedCleanupError e ∈ (RunPy.kill_process_on_port env port force).1
    ∧ ((RunPy.killBody env 8080 (!env.isCloud)).2 = Except.error e →
        (RunPy.mainStartup env).2 = env.isCloud) := by
  refine ⟨?_, ?_, ?_⟩
  · unfold RunPy.kill_process_on_port
    rw [hforce]
    rcases hkb : RunPy.killBody env port force with ⟨es, r⟩
    rw [hkb] at h
    simp only at h
    subst h
    simp
  · unfold RunPy.kill_process_on_port
    rw [hforce]
    rcases hkb : RunPy.killBody env port force with ⟨es, r⟩
    rw [hkb] at h
    simp only at h
    subst h
    simp
  · intro h2
    unfold RunPy.mainStartup
    by_cases hc : env.isCloud
    · simp [RunPy.kill_process_on_port, hc]
    · have hforce2 : (!(!env.isCloud) && env.isCloud) = false := by
        simp [hc]
      unfold RunPy.kill_process_on_port
      rw [hforce2]
      rcases hkb : RunPy.killBody env 8080 (!env.isCloud) with ⟨es, r⟩
      rw [hkb] at h2
      simp only at h2
      subst h2
      simp [hc]

/-- C8 witness environment: local POSIX run, busy port, first release-poll
sleep raises `OSError(4)` (an unexpected exception inside the cleanup
body). -/
def envSleepRaises : RunPy.Env where
  isCloud := false
  isWindows := false
  pidFile := none
  alive := []
  probeSeq := fun _ => Except.ok 0
  sleepErr := fun _ => some (PyErr.oserror 4)
  netstatPids := []
  printErr := none

/-- C8 witness: the theorem applied to the concrete raising environment
outside cloud mode — the error is logged, re-raised, and startup aborts. -/
theorem c8_cleanup_exception_policy_witness :
    (RunPy.killBody envSleepRaises 8080 true).2 = Except.error (PyErr.oserror 4)
    ∧ (RunPy.kill_process_on_port envSleepRaises 8080 true).2
        = (if envSleepRaises.isCloud then Except.ok () else Except.error (PyErr.oserror 4))
    ∧ Event.loggedCleanupError (PyErr.oserror 4)
        ∈ (RunPy.kill_process_on_port envSleepRaises 8080 true).1
    ∧ (RunPy.mainStartup envSleepRaises).2 = envSleepRaises.isCloud :=
  ⟨rfl,
    (c8_cleanup_exception_policy envSleepRaises 8080 true (PyErr.oserror 4)
      rfl (by decide)).1,
    (c8_cleanup_exception_policy envSleepRaises 8080 true (PyErr.oserror 4)
      rfl (by decide)).2.1,
    (c8_cleanup_exception_policy envSleepRaises 8080 true (PyErr.oserror 4)
      rfl (by decide)).2.2 rfl⟩

/-- C9: saving an appointment record stores exactly the previous list with
the new record appended at the end: the stored list is the old list plus one
entry, the length grows by exactly one, and every previously stored entry is
unchanged and in its original position — and since `save_appointment` and
`ensure_storage` are the application's only store mutations, no stored record
is ever updated or deleted. -/
theorem c9_save_appointment_appends (store : Option (List StreamlitApp.Appointment))
    (data : StreamlitApp.Appointment) :
    StreamlitApp.save_appointment store data
        = some (StreamlitApp.load_appointments store ++ [data])
    ∧ (StreamlitApp.load_appointments (StreamlitApp.save_appointment store data)).length
        = (StreamlitApp.load_appointments store).length + 1
    ∧ (StreamlitApp.load_appointments (StreamlitApp.save_appointment store data)).take
          (StreamlitApp.load_appointments store).length
        = StreamlitApp.load_appointments store := by
  refine ⟨rfl, ?_, ?_⟩
  · simp [StreamlitApp.save_appointment, StreamlitApp.load_appointments,
      StreamlitApp.ensure_storage]
  · simp only [StreamlitApp.save_appointment, StreamlitApp.load_appointments,
      StreamlitApp.ensure_storage]
    exact List.take_left _ _

/-- C10: when the pre-check probe reports the target port occupied,
`start_flask_server` returns early with the state completely unchanged: no
child is spawned, the sidecar pid file is not written, and the log file is
not truncated. -/
theorem c10_occupied_port_early_return (probeSeq : Nat → Except PyErr Int)
    (childPid : Nat) (childOut : String) (st : StreamlitApp.AppState)
    (h : probeSeq 0 = Except.ok 0) :
    StreamlitApp.start_flask_server probeSeq childPid childOut st
      = Except.ok (st, StreamlitApp.StartResult.alreadyRunning) := by
  unfold StreamlitApp.start_flask_server
  rw [h]
  rfl

/-- C10 witness: the theorem applied to a concrete occupied-port probe and a
concrete prior state, which is returned untouched. -/
theorem c10_occupied_port_early_return_witness :
    (fun _ : Nat => (Except.ok 0 : Except PyErr Int)) 0 = Except.ok 0
    ∧ StreamlitApp.start_flask_server (fun _ => Except.ok 0) 7 "lg"
        ⟨some "12", some "old", [3], []⟩
      = Except.ok (⟨some "12", some "old", [3], []⟩,
          StreamlitApp.StartResult.alreadyRunning) :=
  ⟨rfl, c10_occupied_port_early_return (fun _ => Except.ok 0) 7 "lg"
    ⟨some "12", some "old", [3], []⟩ rfl⟩
